import Mathlib

/-!
Verification of the arbscan core (canonical schema, fee model, matcher,
edge calculator, Kelly sizing) as a shallow embedding of the Python
sources in `src/arbscan/`.

Modelling conventions:
* Python `Decimal` arithmetic is embedded as exact rational arithmetic
  (`ℚ`); every literal appearing in the claims is exactly representable
  within the 6-digit decimal precision the code configures.
* Python `dict` payloads are embedded as structures whose fields are
  `Option`-valued when the code reads them with `.get` (absence gives a
  default) and also when the code indexes them with `[...]` (absence
  raises `KeyError`, embedded as `Except.error`).
* Functions that can raise are embedded with `Except`; pure total
  functions stay pure.
* The fee table (loaded from `fees.yaml` at import time) and the event
  registry (loaded from `event_registry.yaml`) are external
  configuration; they are passed as explicit parameters.
-/

namespace Arbscan

/-- Python `str.capitalize()`: first character upper-cased, the rest
lower-cased.  Used by `_get_fee_config` to normalize exchange names. -/
def capitalize (s : String) : String :=
  match s.toList with
  | [] => ""
  | c :: cs => String.mk (c.toUpper :: cs.map Char.toLower)

/-- The `YesNo = Literal["YES", "NO"]` type of `market_schema.py`. -/
inductive YesNo where
  | YES : YesNo
  | NO : YesNo
deriving DecidableEq, Repr

/-- One venue's row of the fee table: `entry_fee` and `exit_fee_pct`
(absent YAML fields default to 0 inside `_get_fee_config`, so a row is
always a complete pair once parsed). -/
structure FeeConfig where
  entry_fee : ℚ
  exit_fee_pct : ℚ
deriving DecidableEq, Repr

/-- `DEFAULT_FEE = {"entry_fee": 0, "exit_fee_pct": 0}` in `edge.py`. -/
def DEFAULT_FEE : FeeConfig := ⟨0, 0⟩

/-- The loaded `_FEE_DATA` table: venue name → fee row. -/
abbrev FeeData := List (String × FeeConfig)

/-- `_get_fee_config` of `edge.py`: capitalize the exchange name, look it
up in the fee table, and fall back to `DEFAULT_FEE` when absent. -/
def get_fee_config (feeData : FeeData) (exchange : String) : FeeConfig :=
  (feeData.lookup (capitalize exchange)).getD DEFAULT_FEE

/-- `adjusted_price` of `edge.py`: fee-adjusted all-in cost of one unit
of `side` at raw probability `price` on `exchange`. -/
def adjusted_price (feeData : FeeData) (exchange : String) (side : YesNo)
    (price : ℚ) : ℚ :=
  let fc := get_fee_config feeData exchange
  match side with
  | .YES =>
    let entry_cost := price + fc.entry_fee
    if entry_cost > 1 then 1
    else entry_cost + (1 - entry_cost) * fc.exit_fee_pct
  | .NO =>
    let entry_cost := (1 - price) + fc.entry_fee
    if entry_cost > 1 then 1
    else entry_cost + price * fc.exit_fee_pct

/-- The YES-side algorithm exactly as the specification words it
(§4.2): `entryCost = rawPrice + entryFee`; if `entryCost > 1` cap at 1;
otherwise `entryCost + (1 - entryCost) * exitFeePct`. -/
def specAdjustedPriceYes (entryFee exitFeePct rawPrice : ℚ) : ℚ :=
  let entryCost := rawPrice + entryFee
  if entryCost > 1 then 1
  else entryCost + (1 - entryCost) * exitFeePct

/-- `kelly` of `sizing.py`.  The `Decimal` division raises
`decimal.DivisionByZero` when the divisor `odds - 1` is zero (the
default decimal context traps division by zero), embedded as
`Except.error`. -/
def kelly (edge odds : ℚ) : Except String ℚ :=
  if edge ≤ 0 then .ok 0
  else if odds - 1 = 0 then .error "DivisionByZero"
  else
    let f := (edge * odds) / (odds - 1)
    if f > 1 then .ok 1 else .ok f

/-- A Python `datetime`: an instant plus whether it carries timezone
information (`tzinfo is None` ↔ `aware = false`).  Only awareness is
inspected by the schema validators. -/
structure Datetime where
  epoch : Int
  aware : Bool
deriving DecidableEq, Repr

/-- `settlement: Literal["price", "boolean"]` of `EventKey`. -/
inductive Settlement where
  | price : Settlement
  | boolean : Settlement
deriving DecidableEq, Repr

/-- The `EventKey` frozen dataclass of `market_schema.py`.  Its fields
are exactly `exchange`, `symbol`, `question`, `expiry`, `strike`,
`settlement` — in particular there is no `tag` field. -/
structure EventKey where
  exchange : String
  symbol : String
  question : String
  expiry : Datetime
  strike : Option ℚ := none
  settlement : Settlement := .boolean
deriving DecidableEq, Repr

/-- The `Quote` frozen dataclass of `market_schema.py`. -/
structure Quote where
  side : YesNo
  price : ℚ
  size : Int
  ts : Datetime
deriving DecidableEq, Repr

/-- The `MarketSnapshot` frozen dataclass of `market_schema.py`. -/
structure MarketSnapshot where
  key : EventKey
  best_yes : Quote
  best_no : Quote
deriving DecidableEq, Repr

/-- `ERR_MISSING_TZ` of `market_schema.py`. -/
def ERR_MISSING_TZ : String := "Datetime must be timezone-aware"

/-- `EventKey.__post_init__` validation: constructing an `EventKey`
fails with `ERR_MISSING_TZ` when `expiry.tzinfo is None`. -/
def mkEventKey (exchange symbol question : String) (expiry : Datetime)
    (strike : Option ℚ) (settlement : Settlement) :
    Except String EventKey :=
  if expiry.aware = false then .error ERR_MISSING_TZ
  else .ok ⟨exchange, symbol, question, expiry, strike, settlement⟩

/-- `Quote.__post_init__` validation: price must lie in `[0, 1]` and the
timestamp must be timezone-aware. -/
def mkQuote (side : YesNo) (price : ℚ) (size : Int) (ts : Datetime) :
    Except String Quote :=
  if ¬(0 ≤ price ∧ price ≤ 1) then
    .error ("Price must be between 0 and 1, got " ++ toString price)
  else if ts.aware = false then .error ERR_MISSING_TZ
  else .ok ⟨side, price, size, ts⟩

/-- `MarketSnapshot.__post_init__` validation: `best_yes` must carry
side YES and `best_no` side NO. -/
def mkMarketSnapshot (key : EventKey) (best_yes best_no : Quote) :
    Except String MarketSnapshot :=
  if best_yes.side ≠ .YES then
    .error "best_yes quote must have YES side"
  else if best_no.side ≠ .NO then
    .error "best_no quote must have NO side"
  else .ok ⟨key, best_yes, best_no⟩

/-- The failures `calc_edge` can raise (both are `ValueError` in the
source; the mismatch message interpolates `tag_a` then `tag_b`). -/
inductive EdgeError where
  | missingTag : EdgeError
  | tagMismatch : String → String → EdgeError
deriving DecidableEq, Repr

/-- The optional `tag_map` argument of `calc_edge`:
`"{exchange}:{symbol}"` → canonical tag. -/
abbrev TagMap := List (String × String)

/-- The `get_tag` helper inside `calc_edge`: with a `tag_map`, look up
`"{exchange}:{symbol}"`; without one, fall back to
`getattr(snapshot.key, "tag", None)`, which is always `None` because
`EventKey` declares no `tag` attribute. -/
def get_tag (tagMap : Option TagMap) (s : MarketSnapshot) : Option String :=
  match tagMap with
  | some m => m.lookup (s.key.exchange ++ ":" ++ s.key.symbol)
  | none => none

/-- `calc_edge` of `edge.py`: resolve both snapshots to canonical tags,
require them equal, fee-adjust the four prices and return the better of
the two cross-venue strategies floored at zero. -/
def calc_edge (feeData : FeeData) (snapshot_a snapshot_b : MarketSnapshot)
    (tagMap : Option TagMap) : Except EdgeError ℚ :=
  match get_tag tagMap snapshot_a, get_tag tagMap snapshot_b with
  | some tag_a, some tag_b =>
    if tag_a ≠ tag_b then .error (.tagMismatch tag_a tag_b)
    else
      let yes_price_a :=
        adjusted_price feeData snapshot_a.key.exchange .YES
          snapshot_a.best_yes.price
      let no_price_a :=
        adjusted_price feeData snapshot_a.key.exchange .NO
          snapshot_a.best_no.price
      let yes_price_b :=
        adjusted_price feeData snapshot_b.key.exchange .YES
          snapshot_b.best_yes.price
      let no_price_b :=
        adjusted_price feeData snapshot_b.key.exchange .NO
          snapshot_b.best_no.price
      let edge_a_yes_b_no := (1 - yes_price_a) - no_price_b
      let edge_b_yes_a_no := (1 - yes_price_b) - no_price_a
      .ok (max (max edge_a_yes_b_no edge_b_yes_a_no) 0)
  | _, _ => .error .missingTag

/-- Python `dict[key]` on an embedded optional field: absence raises
`KeyError`. -/
def require {α : Type} (o : Option α) (key : String) : Except String α :=
  match o with
  | some v => .ok v
  | none => .error ("KeyError: " ++ key)

/-- One element of Kalshi's `yes_bids` / `no_bids` arrays: its `price`
(in cents) and `size` fields, both read with required indexing. -/
structure KalshiBid where
  price : ℚ
  size : Int
deriving DecidableEq, Repr

/-- The fields of a Kalshi raw payload that `_kalshi_adapter` reads.
`close_time`, `ticker` and `title` are required (`[...]` indexing);
`yes_bids` / `no_bids` are read with `.get(..., [])` so a missing key is
the empty list; `timestamp` is read with `.get` falling back to now. -/
structure KalshiRaw where
  close_time : Option Datetime
  ticker : Option String
  title : Option String
  yes_bids : List KalshiBid
  no_bids : List KalshiBid
  timestamp : Option Datetime
deriving DecidableEq, Repr

/-- `_kalshi_adapter` of `normalizer.py`.  Kalshi prices are in cents
and divided by 100; a side with no bids falls back to price 0, size 0.
`now` stands for `datetime.now(UTC)` used when `timestamp` is absent. -/
def kalshi_adapter (now : Datetime) (raw : KalshiRaw) :
    Except String MarketSnapshot := do
  let close_time ← require raw.close_time "close_time"
  let ticker ← require raw.ticker "ticker"
  let title ← require raw.title "title"
  let key ← mkEventKey "Kalshi" ticker title close_time none .boolean
  let yes : ℚ × Int :=
    match raw.yes_bids with
    | b :: _ => (b.price / 100, b.size)
    | [] => (0, 0)
  let no : ℚ × Int :=
    match raw.no_bids with
    | b :: _ => (b.price / 100, b.size)
    | [] => (0, 0)
  let timestamp := raw.timestamp.getD now
  let best_yes ← mkQuote .YES yes.1 yes.2 timestamp
  let best_no ← mkQuote .NO no.1 no.2 timestamp
  mkMarketSnapshot key best_yes best_no

/-- The fields of a Nadex raw payload (`raw["contract"]`) that
`_nadex_adapter` reads.  `expiry`, `id`, `name`, `yes_price` and
`no_price` are required (`[...]` indexing); `strike`, the volumes and
`updated_at` are read with `.get`. -/
structure NadexRaw where
  expiry : Option Datetime
  id : Option String
  name : Option String
  strike : Option ℚ
  yes_price : Option ℚ
  no_price : Option ℚ
  yes_volume : Option Int
  no_volume : Option Int
  updated_at : Option Datetime
deriving DecidableEq, Repr

/-- `_nadex_adapter` of `normalizer.py`.  Nadex prices are in ticks and
divided by 100; the price fields are indexed directly, so an absent
side's price is a `KeyError`, while sizes default to 1. -/
def nadex_adapter (now : Datetime) (raw : NadexRaw) :
    Except String MarketSnapshot := do
  let expiry ← require raw.expiry "expiry"
  let id ← require raw.id "id"
  let name ← require raw.name "name"
  let strike : Option ℚ :=
    match raw.strike with
    | some s => if s = 0 then none else some s
    | none => none
  let key ← mkEventKey "Nadex" id name expiry strike .boolean
  let yes_price_raw ← require raw.yes_price "yes_price"
  let no_price_raw ← require raw.no_price "no_price"
  let yes_price := yes_price_raw / 100
  let no_price := no_price_raw / 100
  let yes_size := raw.yes_volume.getD 1
  let no_size := raw.no_volume.getD 1
  let timestamp := raw.updated_at.getD now
  let best_yes ← mkQuote .YES yes_price yes_size timestamp
  let best_no ← mkQuote .NO no_price no_size timestamp
  mkMarketSnapshot key best_yes best_no

/-- One element of PredictIt's `contracts` array: only the fields
`_predictit_adapter` reads.  `id`, `name` and the two costs are
required; shares default to 1; `hasLastTradePrice` embeds the
`"lastTradePrice" in contract` membership test. -/
structure PredictItContract where
  id : Option String
  name : Option String
  bestBuyYesCost : Option ℚ
  bestBuyNoCost : Option ℚ
  bestBuyYesShares : Option Int
  bestBuyNoShares : Option Int
  hasLastTradePrice : Bool
  lastTradeTime : Option Datetime
deriving DecidableEq, Repr

/-- The fields of a PredictIt raw payload (`raw["market"]`) that
`_predictit_adapter` reads. -/
structure PredictItRaw where
  id : Option String
  contracts : List PredictItContract
  dateCloses : Option Datetime
  dateEnd : Option Datetime
deriving DecidableEq, Repr

/-- `_predictit_adapter` of `normalizer.py`.  PredictIt prices are
already probabilities; the cost fields are indexed directly, so an
absent side's cost is a `KeyError`, while shares default to 1.
`contracts[0]` on an empty array is an `IndexError`, and
`fromisoformat(None)` (both close dates absent) a `TypeError`. -/
def predictit_adapter (now : Datetime) (raw : PredictItRaw) :
    Except String MarketSnapshot := do
  let contract ←
    match raw.contracts with
    | c :: _ => Except.ok c
    | [] => Except.error "IndexError: contracts"
  let expiry ←
    match raw.dateCloses.orElse (fun _ => raw.dateEnd) with
    | some d => Except.ok d
    | none => Except.error "TypeError: fromisoformat"
  let market_id ← require raw.id "id"
  let contract_id ← require contract.id "id"
  let name ← require contract.name "name"
  let key ←
    mkEventKey "PredictIt" (market_id ++ "." ++ contract_id) name expiry
      none .boolean
  let yes_price ← require contract.bestBuyYesCost "bestBuyYesCost"
  let no_price ← require contract.bestBuyNoCost "bestBuyNoCost"
  let yes_size := contract.bestBuyYesShares.getD 1
  let no_size := contract.bestBuyNoShares.getD 1
  let timestamp :=
    if contract.hasLastTradePrice then contract.lastTradeTime.getD now
    else now
  let best_yes ← mkQuote .YES yes_price yes_size timestamp
  let best_no ← mkQuote .NO no_price no_size timestamp
  mkMarketSnapshot key best_yes best_no

/-- One row of the event registry YAML loaded by `matcher.py`: a
canonical `tag`, a `description`, and one nullable symbol per venue. -/
structure RegistryEntry where
  tag : String
  description : Option String := none
  kalshi : Option String := none
  nadex : Option String := none
  predictit : Option String := none
deriving DecidableEq, Repr

/-- The loaded `_REGISTRY` list. -/
abbrev Registry := List RegistryEntry

/-- The venue field selected by `_VENUE_TO_TAG_MAPS[venue]`; `none` for
an exchange outside `["kalshi", "nadex", "predictit"]`, matching
`_VENUE_TO_TAG_MAPS.get(exchange, {})`. -/
def venue_field (exchange : String) : Option (RegistryEntry → Option String) :=
  if exchange = "kalshi" then some (fun e => e.kalshi)
  else if exchange = "nadex" then some (fun e => e.nadex)
  else if exchange = "predictit" then some (fun e => e.predictit)
  else none

/-- `tag_from` of `matcher.py`: reverse lookup symbol → tag for one
venue.  The Python dict comprehension lets a later registry entry with
the same symbol overwrite an earlier one, hence the lookup on the
reversed list. -/
def tag_from (registry : Registry) (exchange symbol : String) :
    Option String :=
  match venue_field exchange with
  | none => none
  | some f =>
    ((registry.filterMap fun e => (f e).map fun s => (s, e.tag)).reverse).lookup
      symbol

/-- `venues_for` of `matcher.py`: the first registry entry with the
given tag yields its venue → symbol pairs, dropping null symbols; an
unknown tag yields the empty mapping. -/
def venues_for (registry : Registry) (tag : String) :
    List (String × String) :=
  match registry.find? (fun e => e.tag == tag) with
  | some e =>
    [("kalshi", e.kalshi), ("nadex", e.nadex), ("predictit", e.predictit)].filterMap
      fun p => p.2.map fun s => (p.1, s)
  | none => []

/-! ### Concrete demonstration data (mirrors `tests/test_edge.py`) -/

/-- A timezone-aware timestamp. -/
def tsUTC : Datetime := ⟨1717200000, true⟩

/-- A snapshot like the ones `tests/test_edge.py` builds. -/
def demoSnapshot (exchange symbol : String) (yes no : ℚ) : MarketSnapshot :=
  ⟨⟨exchange, "TEST-" ++ symbol, "Will BTC close above 70K on May 31?",
     tsUTC, none, .boolean⟩,
   ⟨.YES, yes, 100, tsUTC⟩, ⟨.NO, no, 100, tsUTC⟩⟩

/-- Kalshi snapshot: YES 0.10, NO 0.90. -/
def snapK : MarketSnapshot := demoSnapshot "Kalshi" "Kalshi" (1/10) (9/10)

/-- PredictIt snapshot: YES 0.90, NO 0.10. -/
def snapP : MarketSnapshot :=
  demoSnapshot "PredictIt" "PredictIt" (9/10) (1/10)

/-- A tag map resolving both demo snapshots to the same tag. -/
def demoTagMap : TagMap :=
  [("Kalshi:TEST-Kalshi", "TEST-TAG"),
   ("PredictIt:TEST-PredictIt", "TEST-TAG")]

/-- A tag map resolving the demo snapshots to different tags. -/
def mismatchTagMap : TagMap :=
  [("Kalshi:TEST-Kalshi", "TAG-A"), ("PredictIt:TEST-PredictIt", "TAG-B")]

/-! ### Shared facts about `calc_edge` -/

/-- When either snapshot fails to resolve, `calc_edge` raises the
missing-tag error. -/
theorem calc_edge_eq_missing (feeData : FeeData) (a b : MarketSnapshot)
    (tagMap : Option TagMap)
    (h : get_tag tagMap a = none ∨ get_tag tagMap b = none) :
    calc_edge feeData a b tagMap = Except.error .missingTag := by
  unfold calc_edge
  cases ha : get_tag tagMap a with
  | none => rfl
  | some ta =>
    rcases h with h | h
    · rw [ha] at h
      exact absurd h (by simp)
    · rw [h]

/-- When the two resolved tags differ, `calc_edge` raises the
tag-mismatch error (with the tags in call order). -/
theorem calc_edge_eq_mismatch (feeData : FeeData) (a b : MarketSnapshot)
    (tagMap : Option TagMap) (ta tb : String)
    (ha : get_tag tagMap a = some ta) (hb : get_tag tagMap b = some tb)
    (hne : ta ≠ tb) :
    calc_edge feeData a b tagMap = Except.error (.tagMismatch ta tb) := by
  unfold calc_edge
  rw [ha, hb]
  simp [hne]

/-- When both snapshots resolve to the same tag, `calc_edge` returns the
floored maximum of the two cross-venue strategies. -/
theorem calc_edge_eq_of_tags (feeData : FeeData) (a b : MarketSnapshot)
    (tagMap : Option TagMap) (t : String)
    (ha : get_tag tagMap a = some t) (hb : get_tag tagMap b = some t) :
    calc_edge feeData a b tagMap =
      Except.ok (max (max
        ((1 - adjusted_price feeData a.key.exchange .YES a.best_yes.price) -
          adjusted_price feeData b.key.exchange .NO b.best_no.price)
        ((1 - adjusted_price feeData b.key.exchange .YES b.best_yes.price) -
          adjusted_price feeData a.key.exchange .NO a.best_no.price)) 0) := by
  unfold calc_edge
  rw [ha, hb]
  simp

/-! ### Claims -/

/-- C1: for snapshots resolving to the same canonical tag, `calc_edge`
returns `max((1 - adjustedYes A) - adjustedNo B,
(1 - adjustedYes B) - adjustedNo A, 0)`; the result is never negative,
and it is exactly 0 when both cross-strategy values are negative. -/
theorem calc_edge_max_floor (feeData : FeeData) (a b : MarketSnapshot)
    (tagMap : Option TagMap) (t : String)
    (ha : get_tag tagMap a = some t) (hb : get_tag tagMap b = some t) :
    calc_edge feeData a b tagMap =
      Except.ok (max (max
        ((1 - adjusted_price feeData a.key.exchange .YES a.best_yes.price) -
          adjusted_price feeData b.key.exchange .NO b.best_no.price)
        ((1 - adjusted_price feeData b.key.exchange .YES b.best_yes.price) -
          adjusted_price feeData a.key.exchange .NO a.best_no.price)) 0) ∧
    (∀ v, calc_edge feeData a b tagMap = Except.ok v → 0 ≤ v) ∧
    ((1 - adjusted_price feeData a.key.exchange .YES a.best_yes.price) -
        adjusted_price feeData b.key.exchange .NO b.best_no.price < 0 →
      (1 - adjusted_price feeData b.key.exchange .YES b.best_yes.price) -
        adjusted_price feeData a.key.exchange .NO a.best_no.price < 0 →
      calc_edge feeData a b tagMap = Except.ok 0) := by
  have hcalc := calc_edge_eq_of_tags feeData a b tagMap t ha hb
  refine ⟨hcalc, ?_, ?_⟩
  · intro v hv
    rw [hcalc] at hv
    simp only [Except.ok.injEq] at hv
    rw [← hv]
    exact le_max_right _ _
  · intro h1 h2
    rw [hcalc]
    congr 1
    exact max_eq_right (le_of_lt (max_lt h1 h2))

/-- Witness for C1 at the demo snapshots with zero fees. -/
theorem calc_edge_max_floor_witness :
    calc_edge [] snapK snapP (some demoTagMap) =
      Except.ok (max (max
        ((1 - adjusted_price [] snapK.key.exchange .YES snapK.best_yes.price) -
          adjusted_price [] snapP.key.exchange .NO snapP.best_no.price)
        ((1 - adjusted_price [] snapP.key.exchange .YES snapP.best_yes.price) -
          adjusted_price [] snapK.key.exchange .NO snapK.best_no.price)) 0) :=
  (calc_edge_max_floor [] snapK snapP (some demoTagMap) "TEST-TAG"
    (by rfl) (by rfl)).1

/-- C2: `adjusted_price` on side YES computes exactly the specified
algorithm (cap at 1 when `price + entry_fee > 1`, otherwise add
`(1 - entryCost) * exit_fee_pct`), and with entry fee 0.02 and zero exit
fee, Kalshi YES at 0.60 adjusts to exactly 0.62. -/
theorem adjusted_price_yes_spec (feeData : FeeData) (exchange : String)
    (price : ℚ) :
    adjusted_price feeData exchange .YES price =
      specAdjustedPriceYes (get_fee_config feeData exchange).entry_fee
        (get_fee_config feeData exchange).exit_fee_pct price ∧
    adjusted_price [("Kalshi", ⟨2/100, 0⟩)] "Kalshi" .YES (60/100) =
      62/100 := by
  refine ⟨rfl, ?_⟩
  have h : get_fee_config [("Kalshi", ⟨2/100, 0⟩)] "Kalshi" = ⟨2/100, 0⟩ :=
    rfl
  simp only [adjusted_price, h]
  norm_num

/-- C3 counterexample: at edge 0.1 and odds 0.5 the raw formula is
negative and escapes both clamps, so `kelly` returns −0.1 ∉ [0, 1]. -/
theorem kelly_range_cex :
    kelly (1/10) (1/2) = Except.ok (-(1/10)) ∧
    ¬(0 ≤ (-(1/10) : ℚ)) := by
  constructor
  · unfold kelly
    norm_num
  · norm_num

/-- C3 amended: `kelly` returns 0 for every `edge ≤ 0` (any odds); for
every `odds > 1` the result is in [0, 1], and it is exactly 1 whenever
the raw formula `(edge * odds) / (odds - 1)` exceeds 1.  (For
`0 < odds < 1` with a positive edge the raw formula is negative and is
returned unclamped, so the original unrestricted claim fails.) -/
theorem kelly_range (edge odds : ℚ) :
    (edge ≤ 0 → kelly edge odds = Except.ok 0) ∧
    (1 < odds → ∃ v, kelly edge odds = Except.ok v ∧ 0 ≤ v ∧ v ≤ 1) ∧
    (1 < odds → 0 < edge → 1 < (edge * odds) / (odds - 1) →
      kelly edge odds = Except.ok 1) := by
  refine ⟨?_, ?_, ?_⟩
  · intro h
    unfold kelly
    rw [if_pos h]
  · intro hodds
    by_cases he : edge ≤ 0
    · exact ⟨0, by unfold kelly; rw [if_pos he], le_refl 0, by norm_num⟩
    · push_neg at he
      have hne : ¬(odds - 1 = 0) := by intro h; linarith
      have hpos : 0 < odds - 1 := by linarith
      have hfnn : 0 ≤ (edge * odds) / (odds - 1) := by positivity
      unfold kelly
      rw [if_neg (not_le.mpr he), if_neg hne]
      by_cases hf : (edge * odds) / (odds - 1) > 1
      · exact ⟨1, by simp [hf], by norm_num, le_refl 1⟩
      · exact ⟨(edge * odds) / (odds - 1), by simp [hf], hfnn, not_lt.mp hf⟩
  · intro hodds hedge hf
    have hne : ¬(odds - 1 = 0) := by intro h; linarith
    unfold kelly
    rw [if_neg (not_le.mpr hedge), if_neg hne]
    simp [hf]

/-- Witness for C3 amended: edge −1 gives 0, and edge 2 at odds 2 has
raw formula 4 > 1 and is clamped to exactly 1. -/
theorem kelly_range_witness :
    kelly (-1) 2 = Except.ok 0 ∧ kelly 2 2 = Except.ok 1 :=
  ⟨(kelly_range (-1) 2).1 (by norm_num),
   (kelly_range 2 2).2.2 (by norm_num) (by norm_num) (by norm_num)⟩

/-- C6: with any positive edge, calling `kelly` at the degenerate odds 1
divides by zero, which the decimal context raises as an error rather
than silently returning an infinite value. -/
theorem kelly_odds_one (edge : ℚ) (h : 0 < edge) :
    kelly edge 1 = Except.error "DivisionByZero" := by
  unfold kelly
  rw [if_neg (not_le.mpr h)]
  norm_num

/-- Witness for C6 at edge 1. -/
theorem kelly_odds_one_witness :
    kelly 1 1 = Except.error "DivisionByZero" :=
  kelly_odds_one 1 (by norm_num)

/-- C4: `calc_edge` fails with the missing-tag error when either
snapshot does not resolve to a tag, fails with the tag-mismatch error
when the two resolved tags differ, and returns a numeric result (it
does not raise) when both tags resolve and are equal. -/
theorem calc_edge_tag_errors (feeData : FeeData) (a b : MarketSnapshot)
    (tagMap : Option TagMap) :
    (get_tag tagMap a = none ∨ get_tag tagMap b = none →
      calc_edge feeData a b tagMap = Except.error .missingTag) ∧
    (∀ ta tb, get_tag tagMap a = some ta → get_tag tagMap b = some tb →
      ta ≠ tb →
      calc_edge feeData a b tagMap = Except.error (.tagMismatch ta tb)) ∧
    (∀ t, get_tag tagMap a = some t → get_tag tagMap b = some t →
      ∃ v, calc_edge feeData a b tagMap = Except.ok v) := by
  refine ⟨calc_edge_eq_missing feeData a b tagMap, ?_, ?_⟩
  · intro ta tb ha hb hne
    exact calc_edge_eq_mismatch feeData a b tagMap ta tb ha hb hne
  · intro t ha hb
    exact ⟨_, calc_edge_eq_of_tags feeData a b tagMap t ha hb⟩

/-- Witness for C4: a pair with no tag map, a mismatched pair, and a
matching pair. -/
theorem calc_edge_tag_errors_witness :
    calc_edge [] snapK snapP none = Except.error .missingTag ∧
    calc_edge [] snapK snapP (some mismatchTagMap) =
      Except.error (.tagMismatch "TAG-A" "TAG-B") ∧
    ∃ v, calc_edge [] snapK snapP (some demoTagMap) = Except.ok v :=
  ⟨(calc_edge_tag_errors [] snapK snapP none).1 (Or.inl rfl),
   (calc_edge_tag_errors [] snapK snapP (some mismatchTagMap)).2.1
     "TAG-A" "TAG-B" rfl rfl (by simp),
   (calc_edge_tag_errors [] snapK snapP (some demoTagMap)).2.2
     "TEST-TAG" rfl rfl⟩

/-- C5 counterexample: NO side at price 0.02 with entry fee 0.02 and
exit fee 5%: the entry cost is exactly 1 (so it escapes the cap) and
the profit fee pushes the result to 1.001 > 1. -/
theorem adjusted_price_cap_cex :
    adjusted_price [("Kalshi", ⟨1/50, 1/20⟩)] "Kalshi" .NO (1/50) =
      1001/1000 ∧
    ¬(adjusted_price [("Kalshi", ⟨1/50, 1/20⟩)] "Kalshi" .NO (1/50) ≤ 1) := by
  have h : get_fee_config [("Kalshi", ⟨1/50, 1/20⟩)] "Kalshi" =
      ⟨1/50, 1/20⟩ := rfl
  constructor
  · simp only [adjusted_price, h]
    norm_num
  · simp only [adjusted_price, h]
    norm_num

/-- C5 amended: the adjusted price is at most 1 whenever the venue's
exit fee percentage is 0 (either side, any price and entry fee), and on
the YES side whenever the exit fee percentage lies in [0, 1]; only the
entry cost is capped, so a positive exit fee percentage can push the
NO-side result above 1. -/
theorem adjusted_price_le_one (feeData : FeeData) (exchange : String)
    (side : YesNo) (price : ℚ) :
    ((get_fee_config feeData exchange).exit_fee_pct = 0 →
      adjusted_price feeData exchange side price ≤ 1) ∧
    (0 ≤ (get_fee_config feeData exchange).exit_fee_pct →
      (get_fee_config feeData exchange).exit_fee_pct ≤ 1 →
      adjusted_price feeData exchange .YES price ≤ 1) := by
  constructor
  · intro h0
    cases side <;>
      (simp only [adjusted_price, h0, mul_zero, add_zero]
       split_ifs with hc
       · exact le_refl 1
       · exact not_lt.mp hc)
  · intro hp0 hp1
    simp only [adjusted_price]
    split_ifs with hc
    · exact le_refl 1
    · push_neg at hc
      have hr : (1 - (price + (get_fee_config feeData exchange).entry_fee)) *
            (get_fee_config feeData exchange).exit_fee_pct ≤
          1 - (price + (get_fee_config feeData exchange).entry_fee) :=
        mul_le_of_le_one_right (by linarith) hp1
      linarith

/-- Witness for C5 amended: zero fees on the NO side, and Kalshi fees
(entry 0.02, exit 5%) on the YES side. -/
theorem adjusted_price_le_one_witness :
    adjusted_price [] "Kalshi" .NO (1/2) ≤ 1 ∧
    adjusted_price [("Kalshi", ⟨2/100, 1/20⟩)] "Kalshi" .YES (3/5) ≤ 1 :=
  ⟨(adjusted_price_le_one [] "Kalshi" .NO (1/2)).1 rfl,
   (adjusted_price_le_one [("Kalshi", ⟨2/100, 1/20⟩)] "Kalshi" .YES
       (3/5)).2
     (show (0 : ℚ) ≤ 1/20 by norm_num)
     (show (1 : ℚ)/20 ≤ 1 by norm_num)⟩

/-- Auxiliary for C7: swapping the snapshots preserves any successful
result of `calc_edge`. -/
theorem calc_edge_swap_ok (feeData : FeeData) (a b : MarketSnapshot)
    (tagMap : Option TagMap) (v : ℚ)
    (h : calc_edge feeData a b tagMap = Except.ok v) :
    calc_edge feeData b a tagMap = Except.ok v := by
  cases ha : get_tag tagMap a with
  | none =>
    rw [calc_edge_eq_missing feeData a b tagMap (Or.inl ha)] at h
    exact absurd h (by simp)
  | some ta =>
    cases hb : get_tag tagMap b with
    | none =>
      rw [calc_edge_eq_missing feeData a b tagMap (Or.inr hb)] at h
      exact absurd h (by simp)
    | some tb =>
      by_cases hne : ta = tb
      · subst hne
        rw [calc_edge_eq_of_tags feeData a b tagMap ta ha hb] at h
        rw [calc_edge_eq_of_tags feeData b a tagMap ta hb ha, ← h]
        congr 1
        rw [max_comm
          ((1 - adjusted_price feeData b.key.exchange .YES
              b.best_yes.price) -
            adjusted_price feeData a.key.exchange .NO a.best_no.price)]
      · rw [calc_edge_eq_mismatch feeData a b tagMap ta tb ha hb hne] at h
        exact absurd h (by simp)

/-- C7: `calc_edge` computes the same result in either argument order:
it returns a value `v` on `(A, B)` exactly when it returns the same `v`
on `(B, A)` (and hence raises on one order exactly when it raises on
the other). -/
theorem calc_edge_symm (feeData : FeeData) (a b : MarketSnapshot)
    (tagMap : Option TagMap) (v : ℚ) :
    calc_edge feeData a b tagMap = Except.ok v ↔
      calc_edge feeData b a tagMap = Except.ok v :=
  ⟨calc_edge_swap_ok feeData a b tagMap v,
   calc_edge_swap_ok feeData b a tagMap v⟩

/-- C10: without an injected tag map, the `getattr` fallback always
yields `None` because `EventKey` has no `tag` field, so `calc_edge`
raises the missing-tag error on every pair of snapshots. -/
theorem calc_edge_no_tag_map (feeData : FeeData) (a b : MarketSnapshot) :
    calc_edge feeData a b none = Except.error EdgeError.missingTag := rfl

/-- Monadic sequencing of `Except` on a success, as a rewrite rule. -/
theorem except_bind_ok {ε α β : Type} (a : α) (f : α → Except ε β) :
    (Except.ok a >>= f) = f a := rfl

/-- Monadic sequencing of `Except` on a failure, as a rewrite rule. -/
theorem except_bind_error {ε α β : Type} (e : ε) (f : α → Except ε β) :
    ((Except.error e : Except ε α) >>= f) = Except.error e := rfl

/-- A Nadex payload with full metadata and a NO-side quote but no
`yes_price` key. -/
def nadexRawNoYes : NadexRaw :=
  ⟨some tsUTC, some "NDX-1", some "Nadex demo market", none, none,
   some 40, some 1, some 1, some tsUTC⟩

/-- C8 counterexample: the Nadex normalizer does not default a missing
YES quote to price 0 / size 0 — it fails with a key error. -/
theorem normalizer_fallback_cex :
    nadex_adapter tsUTC nadexRawNoYes =
      Except.error "KeyError: yes_price" := rfl

/-- C8 amended: only the Kalshi normalizer falls back to price 0 and
size 0 for a side with no quote in the payload; the Nadex and PredictIt
normalizers read the side's price field with required indexing and fail
with a key error when it is absent. -/
theorem normalizer_missing_quote
    (now d : Datetime) (tk ti : String) (tsOpt : Option Datetime)
    (strike nop : Option ℚ) (yv nv : Option Int) (upd : Option Datetime)
    (mid cid nm : String) (shY shN : Option Int) (hlt : Bool)
    (ltt : Option Datetime)
    (hd : d.aware = true) (hts : (tsOpt.getD now).aware = true) :
    (∃ snap,
      kalshi_adapter now ⟨some d, some tk, some ti, [], [], tsOpt⟩ =
        Except.ok snap ∧
      snap.best_yes.price = 0 ∧ snap.best_yes.size = 0 ∧
      snap.best_no.price = 0 ∧ snap.best_no.size = 0) ∧
    nadex_adapter now
        ⟨some d, some tk, some ti, strike, none, nop, yv, nv, upd⟩ =
      Except.error "KeyError: yes_price" ∧
    predictit_adapter now
        ⟨some mid, [⟨some cid, some nm, none, nop, shY, shN, hlt, ltt⟩],
         some d, none⟩ =
      Except.error "KeyError: bestBuyYesCost" := by
  refine ⟨⟨⟨⟨"Kalshi", tk, ti, d, none, .boolean⟩,
      ⟨.YES, 0, 0, tsOpt.getD now⟩, ⟨.NO, 0, 0, tsOpt.getD now⟩⟩,
      ?_, rfl, rfl, rfl, rfl⟩, ?_, ?_⟩
  · norm_num [kalshi_adapter, require, mkEventKey, mkQuote,
      mkMarketSnapshot, hd, hts, except_bind_ok, except_bind_error]
  · norm_num [nadex_adapter, require, mkEventKey, hd, except_bind_ok,
      except_bind_error]
    rfl
  · norm_num [predictit_adapter, require, mkEventKey, Option.orElse, hd,
      except_bind_ok, except_bind_error]
    rfl

/-- Witness for C8 amended at concrete payloads. -/
theorem normalizer_missing_quote_witness :
    (∃ snap,
      kalshi_adapter tsUTC
          ⟨some tsUTC, some "KX-1", some "Kalshi demo", [], [], none⟩ =
        Except.ok snap ∧
      snap.best_yes.price = 0 ∧ snap.best_yes.size = 0 ∧
      snap.best_no.price = 0 ∧ snap.best_no.size = 0) ∧
    nadex_adapter tsUTC
        ⟨some tsUTC, some "KX-1", some "Kalshi demo", none, none, some 40,
         some 1, some 1, none⟩ =
      Except.error "KeyError: yes_price" ∧
    predictit_adapter tsUTC
        ⟨some "m1",
         [⟨some "c1", some "PredictIt demo", none, none, some 1, some 1,
           false, none⟩],
         some tsUTC, none⟩ =
      Except.error "KeyError: bestBuyYesCost" :=
  normalizer_missing_quote tsUTC tsUTC "KX-1" "Kalshi demo" none none none
    (some 1) (some 1) none "m1" "c1" "PredictIt demo" (some 1) (some 1)
    false none rfl rfl

/-- A lookup over pairs none of whose keys equals the probe returns
nothing. -/
theorem lookup_eq_none_of_keys_ne {l : List (String × String)}
    {k : String} (h : ∀ p ∈ l, p.1 ≠ k) : l.lookup k = none := by
  induction l with
  | nil => rfl
  | cons p t ih =>
    obtain ⟨k1, v1⟩ := p
    have hp : k1 ≠ k := h (k1, v1) (List.mem_cons_self _ _)
    have hbeq : (k == k1) = false := beq_eq_false_iff_ne.mpr (Ne.symm hp)
    simp only [List.lookup, hbeq]
    exact ih fun q hq => h q (List.mem_cons_of_mem _ hq)

/-- C9: neither matcher lookup can fail: `venues_for` returns the empty
mapping on an unknown tag and, on a known tag, exactly the venues whose
symbol entry in the (first) matching registry row is non-null;
`tag_from` returns none on an unknown exchange and on a symbol no
registry row carries for that exchange. -/
theorem matcher_lookups (registry : Registry)
    (tag exchange symbol v s : String) :
    ((∀ e ∈ registry, e.tag ≠ tag) → venues_for registry tag = []) ∧
    (∀ e, registry.find? (fun x => x.tag == tag) = some e →
      ((v, s) ∈ venues_for registry tag ↔
        (v = "kalshi" ∧ e.kalshi = some s) ∨
        (v = "nadex" ∧ e.nadex = some s) ∨
        (v = "predictit" ∧ e.predictit = some s))) ∧
    (exchange ≠ "kalshi" → exchange ≠ "nadex" → exchange ≠ "predictit" →
      tag_from registry exchange symbol = none) ∧
    (∀ f, venue_field exchange = some f →
      (∀ e ∈ registry, f e ≠ some symbol) →
      tag_from registry exchange symbol = none) := by
  refine ⟨?_, ?_, ?_, ?_⟩
  · intro h
    unfold venues_for
    have hnone : registry.find? (fun x => x.tag == tag) = none :=
      List.find?_eq_none.mpr fun e he => by simpa using h e he
    rw [hnone]
  · intro e he
    unfold venues_for
    rw [he]
    simp [List.mem_filterMap, Option.map_eq_some', Prod.ext_iff]
    constructor
    · rintro ⟨a, b, (⟨ha, hb⟩ | ⟨ha, hb⟩ | ⟨ha, hb⟩), hbs, hav⟩
      · exact Or.inl ⟨hav.symm.trans ha, hb.symm.trans hbs⟩
      · exact Or.inr (Or.inl ⟨hav.symm.trans ha, hb.symm.trans hbs⟩)
      · exact Or.inr (Or.inr ⟨hav.symm.trans ha, hb.symm.trans hbs⟩)
    · rintro (⟨hv, hk⟩ | ⟨hv, hk⟩ | ⟨hv, hk⟩)
      · exact ⟨"kalshi", some s, Or.inl ⟨rfl, hk.symm⟩, rfl, hv.symm⟩
      · exact ⟨"nadex", some s, Or.inr (Or.inl ⟨rfl, hk.symm⟩), rfl,
          hv.symm⟩
      · exact ⟨"predictit", some s, Or.inr (Or.inr ⟨rfl, hk.symm⟩), rfl,
          hv.symm⟩
  · intro h1 h2 h3
    unfold tag_from venue_field
    rw [if_neg h1, if_neg h2, if_neg h3]
  · intro f hf hnone
    unfold tag_from
    rw [hf]
    refine lookup_eq_none_of_keys_ne fun p hp hpk => ?_
    rw [List.mem_reverse, List.mem_filterMap] at hp
    obtain ⟨e, he, hfe⟩ := hp
    rw [Option.map_eq_some'] at hfe
    obtain ⟨s0, hs0, hps⟩ := hfe
    have hs1 : s0 = p.1 := by rw [← hps]
    exact hnone e he (by rw [hs0, hs1, hpk])

end Arbscan
